import Mathlib

/-!
A shallow embedding of the temperature-controller core of the Bluefors_toolbox
repository (`scr/temperature_controller.py`, together with the Lakeshore heater
driver `scr/instrument_drivers/bluefors/lakeshore_model_372.py`), and theorems
about its sliding-window statistics, stability detection and PID-calibration
procedures.

Modelling conventions:
* timestamps and temperature values are rationals (`ℚ`), abstracting the IEEE
  floats and `datetime` values of the source; time is passed explicitly as a
  `now` argument (the source calls `datetime.now()`);
* the instrument (heater / scanner) is an external HTTP-backed collaborator;
  its commands are recorded as trace events, and an environment oracle decides
  whether a given external call raises;
* `threading.Event.wait(timeout)` returns `False` (and `wait_for_stability`
  then raises `TimeoutError`) only when a non-`None` timeout was supplied;
  a `wait(None)` on an event that is never set blocks forever, which the
  embedding represents with the distinguished outcome `CalErr.hangs`.
-/

/-- Sliding window of timestamped samples, from `TimedQueue`
(`scr/temperature_controller.py` lines 20-63).  `times` and `values` are the
two parallel deques; `ttl` and `fullTime` are `ttl` and `full_time` in
seconds.  The value type is a parameter because no queue operation used by the
controller inspects the stored values. -/
structure TimedQueue (V : Type) where
  times : List ℚ
  values : List V
  ttl : ℚ
  fullTime : ℚ
deriving DecidableEq, Repr

/-- Constructor `TimedQueue.__init__`: with `minimal_timespan` falsy (omitted,
or the zero timedelta — Python truthiness), `full_time = ttl - 1 minute`
(60 seconds).  The `assert self.ttl > self.full_time` is modelled by returning
`none` when the check fails. -/
def TimedQueue.init (V : Type) (ttl : ℚ) (minimalTimespan : Option ℚ) :
    Option (TimedQueue V) :=
  let fullTime :=
    match minimalTimespan with
    | some t => if t = 0 then ttl - 60 else t
    | none => ttl - 60
  if ttl > fullTime then some ⟨[], [], ttl, fullTime⟩ else none

/-- Front-eviction loop of `TimedQueue._cleanup`: drop leading samples whose
age exceeds `ttl`. -/
def dropStale {V : Type} (now ttl : ℚ) : List ℚ → List V → List ℚ × List V
  | t :: ts, v :: vs =>
    if now - t > ttl then dropStale now ttl ts vs else (t :: ts, v :: vs)
  | ts, vs => (ts, vs)

/-- Models `TimedQueue._cleanup` (lines 28-32). -/
def TimedQueue.cleanup {V : Type} (now : ℚ) (q : TimedQueue V) : TimedQueue V :=
  let p := dropStale now q.ttl q.times q.values
  ⟨p.1, p.2, q.ttl, q.fullTime⟩

/-- Models `TimedQueue.append` (lines 34-37): cleanup, then push the sample at the
back. -/
def TimedQueue.append {V : Type} (now : ℚ) (v : V) (q : TimedQueue V) :
    TimedQueue V :=
  let q' := q.cleanup now
  ⟨q'.times ++ [now], q'.values ++ [v], q.ttl, q.fullTime⟩

/-- Models `TimedQueue.is_full` (lines 53-55):
`bool(self._times and (self._times[-1] - self._times[0] >= self.full_time))`
after cleanup. -/
def TimedQueue.isFull {V : Type} (now : ℚ) (q : TimedQueue V) : Bool :=
  let q' := q.cleanup now
  !q'.times.isEmpty && decide (q'.times.getLastD 0 - q'.times.headD 0 ≥ q.fullTime)

/-- Models `TimedQueue.get_data` (lines 57-59): cleanup, then the parallel lists. -/
def TimedQueue.getData {V : Type} (now : ℚ) (q : TimedQueue V) :
    List ℚ × List V :=
  let q' := q.cleanup now
  (q'.times, q'.values)

/-- Models `TimedQueue.clear` (lines 61-63): discard every sample. -/
def TimedQueue.clear {V : Type} (q : TimedQueue V) : TimedQueue V :=
  ⟨[], [], q.ttl, q.fullTime⟩

/-- Arithmetic mean of a list of rationals (`np.mean`); `0` on the empty list,
which no caller below hits. -/
def listMean (xs : List ℚ) : ℚ := xs.sum / (xs.length : ℚ)

/-- Least-squares linear fit with coefficient of determination, from
`_fit_linear` (lines 122-157).  `scipy.optimize.curve_fit` on the model
`k * x + b` computes exactly the closed-form least-squares solution (floats
abstracted to `ℚ`): `k = Sxy / Sxx`, `b = ȳ - k * x̄`.  `R²` follows
`sklearn.metrics.r2_score`, whose convention for a constant `y` is `1` when
the residuals are zero and `0` otherwise.  `none` models `curve_fit` raising
on a degenerate system (all `x` equal, e.g. a single sample), an exception the
polling loop catches. -/
def fitLinear (x y : List ℚ) : Option (ℚ × ℚ × ℚ) :=
  let xm := listMean x
  let ym := listMean y
  let sxx := (x.map (fun xi => (xi - xm) ^ 2)).sum
  let sxy := (List.zipWith (fun xi yi => (xi - xm) * (yi - ym)) x y).sum
  if sxx = 0 then none
  else
    let k := sxy / sxx
    let b := ym - k * xm
    let yhat := x.map (fun xi => k * xi + b)
    let ssRes := (List.zipWith (fun yi yh => (yi - yh) ^ 2) y yhat).sum
    let ssTot := (y.map (fun yi => (yi - ym) ^ 2)).sum
    let r2 := if ssTot = 0 then (if ssRes = 0 then (1 : ℚ) else 0) else 1 - ssRes / ssTot
    some (k, b, r2)

/-- State of a `StableTemperaturePoller` (lines 160-216): its stability window,
the `stability_kelvin` tolerance, the `threading.Event` `_stable_event`
(a broadcast flag every `wait_for_stability` caller blocks on), and
`_stable_start`. -/
structure StablePoller where
  queue : TimedQueue ℚ
  stabilityKelvin : ℚ
  stableEvent : Bool
  stableStart : Option ℚ
deriving DecidableEq, Repr

/-- Models `StableTemperaturePoller._evaluate_stability` (lines 176-193), run after
each successful append.  `is_full` and `get_data` both perform cleanup, which
the result's queue reflects.  Setting `stableEvent` models
`self._stable_event.set()`, the broadcast that wakes every waiter. -/
def evaluateStability (now : ℚ) (d : StablePoller) : StablePoller :=
  if !(d.queue.isFull now) then { d with queue := d.queue.cleanup now }
  else
    let times := (d.queue.getData now).1
    let temps := (d.queue.getData now).2
    let t0 := times.headD 0
    let tsecs := times.map (fun t => t - t0)
    match fitLinear tsecs temps with
    | none => { d with queue := d.queue.cleanup now }
    | some (k, _, r2) =>
      let windowSec := d.queue.fullTime
      if |k * windowSec| ≤ d.stabilityKelvin ∧ r2 > 0.95 then
        if d.stableEvent then { d with queue := d.queue.cleanup now }
        else
          { d with queue := d.queue.cleanup now, stableEvent := true,
                   stableStart := some (now - d.queue.fullTime) }
      else
        if d.stableEvent then
          { d with queue := d.queue.clear, stableEvent := false,
                   stableStart := none }
        else { d with queue := d.queue.cleanup now }

/-- A sensor reading as the poller sees it: a float, which may be a NaN.  The
controller never branches on the value, so only NaN-ness is distinguished. -/
inductive SensorVal where
  | nan
  | val (v : ℚ)
deriving DecidableEq, Repr

/-- Append section of one tick of `StableTemperaturePoller._run` (lines
198-202): the freshly read value is appended to the stability queue and to
every additional queue, unconditionally — the code never inspects the value. -/
def pollAppendAll {V : Type} (now : ℚ) (val : V) (stabilityQueue : TimedQueue V)
    (additionalQueues : List (TimedQueue V)) :
    TimedQueue V × List (TimedQueue V) :=
  (stabilityQueue.append now val, additionalQueues.map (fun q => q.append now val))

/-- State of the `LakeshoreScanner` module
(`lakeshore_model_372.py` lines 122-134): the `autoscan` flag and the
currently selected `channel`. -/
structure ScannerState where
  autoscan : Bool
  channel : String
deriving DecidableEq, Repr

/-- Observable scanner/session actions of `TemperatureController.__enter__`. -/
inductive ScanEv where
  | readAutoscan (b : Bool)
  | setAutoscan (b : Bool)
  | setChannel (c : String)
  | plotterStart
deriving DecidableEq, Repr

/-- Result of entering a control session. -/
structure EnterResult where
  scanner : ScannerState
  recordedAutoscan : Bool
  contextActive : Bool
  events : List ScanEv
deriving DecidableEq, Repr

/-- Models `TemperatureController.__enter__` (`scr/temperature_controller.py` lines
280-293): read and record the scanner's autoscan flag, write it to `False`
when it was set, mark the context active and start the background plotter.
The `targetSensor` argument is the controller's target sensor name; `__enter__`
performs no scanner call that depends on it. -/
def controllerEnter (sc : ScannerState) (targetSensor : String) : EnterResult :=
  let recorded := sc.autoscan
  if recorded then
    { scanner := { sc with autoscan := false }
      recordedAutoscan := recorded
      contextActive := true
      events := [ScanEv.readAutoscan recorded, ScanEv.setAutoscan false,
                 ScanEv.plotterStart] }
  else
    { scanner := sc
      recordedAutoscan := recorded
      contextActive := true
      events := [ScanEv.readAutoscan recorded, ScanEv.plotterStart] }

/-- Observable actions of the calibration procedures: heater parameter writes
(`Heater.mode/range/manual_value/setpoint/p`), the commit `Heater.accept`
(`call_method('write')`), the fixed `time.sleep`, and each invocation of
`wait_for_stability` together with the timeout argument it was given. -/
inductive Ev where
  | mode (m : String)
  | range (r : String)
  | manualValue (v : ℚ)
  | setpointVal (v : ℚ)
  | gainP (v : ℚ)
  | accept
  | sleep (secs : ℚ)
  | waitStab (timeout : Option ℚ)
deriving DecidableEq, Repr

/-- Exceptional outcomes of a calibration run.  `timeoutError` is the
`TimeoutError` of `wait_for_stability`; `ioError` is an exception raised by an
external heater API call; `hangs` marks `Event.wait(None)` on an event that is
never set — the call blocks forever, so nothing after it (no `finally` block
included) ever executes. -/
inductive CalErr where
  | timeoutError
  | ioError
  | hangs
deriving DecidableEq, Repr

/-- Mutable context threaded through a calibration run: the trace of
observable actions, and counters of heater API calls and stability waits
issued so far (used to index the environment's oracles). -/
structure St where
  trace : List Ev
  cmdIdx : ℕ
  waitIdx : ℕ
deriving DecidableEq, Repr

/-- Calibration computations: state passing plus Python-style exceptions.
The state is returned on both the normal and the exceptional path, so a trace
exists for runs that raise or hang. -/
def CalM (α : Type) : Type := St → Except CalErr α × St

def CalM.pure {α : Type} (a : α) : CalM α := fun s => (Except.ok a, s)

def CalM.bind {α β : Type} (x : CalM α) (f : α → CalM β) : CalM β := fun s =>
  match x s with
  | (Except.ok a, s') => f a s'
  | (Except.error e, s') => (Except.error e, s')

instance : Monad CalM where
  pure := CalM.pure
  bind := CalM.bind

/-- Environment of a calibration run: `Heater.RANGES` key enumeration order
(an external `qcodes` constant), whether the `n`-th heater API call raises
(external HTTP I/O), and whether the stability event becomes set during the
`n`-th `wait_for_stability` call (the concurrently running detector's
behavior). -/
structure CalEnv where
  ranges : List String
  cmdRaises : ℕ → Bool
  waitStabilizes : ℕ → Bool

/-- One heater API call: either raises (per the environment) or records its
event.  A raising call takes no effect on the instrument, so no event is
recorded for it. -/
def hcall (env : CalEnv) (e : Ev) : CalM Unit := fun s =>
  if env.cmdRaises s.cmdIdx then
    (Except.error CalErr.ioError, { s with cmdIdx := s.cmdIdx + 1 })
  else
    (Except.ok (), { s with trace := s.trace ++ [e], cmdIdx := s.cmdIdx + 1 })

/-- Records the delay of a `time.sleep` call. -/
def sleepFor (secs : ℚ) : CalM Unit := fun s =>
  (Except.ok (), { s with trace := s.trace ++ [Ev.sleep secs] })

/-- Models `StableTemperaturePoller.wait_for_stability` (lines 212-216) as observed
by the caller: records the invocation with its timeout argument.  If the
detector stabilizes during the wait, the call returns; otherwise
`Event.wait` returns `False` and `TimeoutError` is raised when a timeout was
supplied, and the call blocks forever when the timeout is `None`. -/
def waitForStability (env : CalEnv) (timeout : Option ℚ) : CalM Unit := fun s =>
  let s' := { s with trace := s.trace ++ [Ev.waitStab timeout],
                     waitIdx := s.waitIdx + 1 }
  if env.waitStabilizes s.waitIdx then (Except.ok (), s')
  else
    match timeout with
    | some _ => (Except.error CalErr.timeoutError, s')
    | none => (Except.error CalErr.hangs, s')

/-- Models `Heater.write_session` (`lakeshore_model_372.py` lines 75-80):
`try: yield / finally: self.accept()`.  The commit runs on normal exit and
after an exception from the body (the exception then continues to propagate;
a commit failure supersedes it).  A body that blocks forever never reaches
the `finally`. -/
def writeSession (env : CalEnv) (body : CalM Unit) : CalM Unit := fun s =>
  match body s with
  | (Except.ok _, s₁) => hcall env Ev.accept s₁
  | (Except.error CalErr.hangs, s₁) => (Except.error CalErr.hangs, s₁)
  | (Except.error e, s₁) =>
    match hcall env Ev.accept s₁ with
    | (Except.ok _, s₂) => (Except.error e, s₂)
    | (Except.error e₂, s₂) => (Except.error e₂, s₂)

/-- Handler for `except TimeoutError` (only): run the handler on a
`timeoutError`, let every other outcome through. -/
def catchTimeout {α : Type} (body : CalM α) (handler : CalM α) : CalM α :=
  fun s =>
  match body s with
  | (Except.ok a, s') => (Except.ok a, s')
  | (Except.error CalErr.timeoutError, s') => handler s'
  | (Except.error e, s') => (Except.error e, s')

/-- Models `Heater.turn_off` (`lakeshore_model_372.py` lines 82-86): inside one write
session, mode off, range off, manual value 0. -/
def heaterTurnOff (env : CalEnv) : CalM Unit :=
  writeSession env (do
    hcall env (Ev.mode "off")
    hcall env (Ev.range "off")
    hcall env (Ev.manualValue 0))

/-- Sweep loop of `PIDCalibrator.calibrate_ranges` (lines 325-336): for each
range key except `'off'`, set and commit the range, sleep 5 seconds, then
`try: wait_for_stability(); append True / except TimeoutError: append False;
break`.  Note the wait carries no timeout argument. -/
def rangesSweep (env : CalEnv) : List String → List Bool → CalM (List Bool)
  | [], results => CalM.pure results
  | r :: rest, results =>
    if r = "off" then rangesSweep env rest results
    else do
      writeSession env (hcall env (Ev.range r))
      sleepFor 5
      let ok ← catchTimeout (do waitForStability env none; CalM.pure true)
        (CalM.pure false)
      if ok then rangesSweep env rest (results ++ [true])
      else CalM.pure (results ++ [false])

/-- Models `PIDCalibrator.calibrate_ranges` (lines 320-338).  `tolerance` mirrors the
Python parameter, which the body never uses.  There is no `try/finally`: the
`turn_off` call simply follows the loop. -/
def calibrateRanges (env : CalEnv) (tolerance : ℚ) : CalM (List Bool) := do
  writeSession env (do
    hcall env (Ev.mode "open_loop")
    hcall env (Ev.manualValue 50))
  let results ← rangesSweep env env.ranges []
  heaterTurnOff env
  CalM.pure results

/-- Loop `while p < 1e4` of `PIDCalibrator.calibrate_p` (lines 349-356): set
and commit gain `p`, `try: wait_for_stability(); break / except TimeoutError:
p *= 2`.  `fuel` bounds the recursion; `calibrate_p` starts at `p = 5.0` and
`p` doubles, so `5 * 2^11 ≥ 1e4` makes 20 units of fuel unreachable, and the
fuel-exhaustion branch (returning `p` unchanged) never runs. -/
def gainSearchLoop (env : CalEnv) (fuel : ℕ) (p : ℚ) : CalM ℚ :=
  match fuel with
  | 0 => CalM.pure p
  | Nat.succ fuel' =>
    if p < 10000 then do
      writeSession env (hcall env (Ev.gainP p))
      let ok ← catchTimeout (do waitForStability env none; CalM.pure true)
        (CalM.pure false)
      if ok then CalM.pure p
      else gainSearchLoop env fuel' (p * 2)
    else CalM.pure p

/-- Models `np.clip(x, lo, hi)` on finite inputs. -/
def npClip (x lo hi : ℚ) : ℚ := max lo (min x hi)

/-- Models `PIDCalibrator.calibrate_p` (lines 344-359): closed-loop mode and the
setpoint in one committed write session, the gain search starting at
`p = 5.0`, then the final gain `np.clip(p * 0.6, 0, 1e4)` committed.
`tolerance` mirrors the Python parameter, which the body never uses. -/
def calibrateP (env : CalEnv) (setpoint tolerance : ℚ) : CalM Unit := do
  writeSession env (do
    hcall env (Ev.mode "closed_loop")
    hcall env (Ev.setpointVal setpoint))
  let p ← gainSearchLoop env 20 5
  writeSession env (hcall env (Ev.gainP (npClip (p * 0.6) 0 10000)))

/-- Number of non-`'off'` keys of a range enumeration. -/
def nonOffCount (rs : List String) : ℕ :=
  (rs.filter (fun r => r ≠ "off")).length

/-- Trace the specification's range sweep prescribes for one pass over the
range keys: for each key other than `'off'`, in enumeration order, a committed
range write, the 5-second settle delay, and one stability wait (which the
source invokes with no timeout). -/
def sweepSpecTrace : List String → List Ev
  | [] => []
  | r :: rest =>
    if r = "off" then sweepSpecTrace rest
    else [Ev.range r, Ev.accept, Ev.sleep 5, Ev.waitStab none] ++ sweepSpecTrace rest

/-- Full prescribed trace of a `calibrate_ranges` run in which every tested
range stabilizes: committed open-loop setup at 50% manual output, the sweep,
and the final committed heater-off sequence. -/
def rangesSpecTrace (rs : List String) : List Ev :=
  [Ev.mode "open_loop", Ev.manualValue 50, Ev.accept] ++ sweepSpecTrace rs ++
  [Ev.mode "off", Ev.range "off", Ev.manualValue 0, Ev.accept]

/-- Concrete environment: four range keys, no I/O failures, a detector that
always stabilizes. -/
def envAllStable : CalEnv :=
  ⟨["off", "r1", "r2", "r3"], fun _ => false, fun _ => true⟩

/-- Concrete environment: three range keys, no I/O failures, a detector that
always stabilizes. -/
def envAllStable2 : CalEnv :=
  ⟨["off", "x1", "x2"], fun _ => false, fun _ => true⟩

/-- Concrete environment in which the fourth heater API call (the first range
write of the sweep) raises. -/
def envCmdFail : CalEnv :=
  ⟨["off", "r1", "r2", "r3"], fun i => i == 3, fun _ => true⟩

/-- Concrete environment for the gain search: the detector never stabilizes
while the gain is below 80 — in particular not at the initial `p = 5`, the
only gain the run ever reaches. -/
def envStableAt80 : CalEnv :=
  ⟨["off"], fun _ => false, fun _ => false⟩

/-- Initial calibration context: empty trace, no calls issued yet. -/
def St.start : St := ⟨[], 0, 0⟩

/-- Concrete detector about to see a full, perfectly constant window. -/
def detConstant : StablePoller := ⟨⟨[0, 100], [4, 4], 120, 60⟩, 1 / 1000, false, none⟩

/-- Concrete detector, currently stable, whose window ends in a step change
large enough to break the fit criterion. -/
def detStep : StablePoller := ⟨⟨[0, 50, 100], [4, 4, 10], 120, 60⟩, 1 / 1000, true, some 40⟩

theorem CalM.bind_apply {α β : Type} (x : CalM α) (f : α → CalM β) (s : St) :
    (x >>= f) s =
      match x s with
      | (Except.ok a, s') => f a s'
      | (Except.error e, s') => (Except.error e, s') := rfl

/-- C10: with `minimal_timespan` omitted, the `TimedQueue` constructor sets
`full_time = ttl - 1 minute`, so its `ttl > full_time` assertion passes for
every `ttl`; for `ttl ≤ 1` minute the resulting `full_time` is zero or
negative. -/
theorem c10_default_full_time (ttl : ℚ) :
    TimedQueue.init ℚ ttl none = some ⟨[], [], ttl, ttl - 60⟩ ∧
    (ttl ≤ 60 → ttl - 60 ≤ 0) := by
  have h : ttl > ttl - 60 := by linarith
  refine ⟨by simp [TimedQueue.init, h], fun hle => by linarith⟩

/-- Witness for C10 at `ttl = 30` seconds. -/
theorem c10_default_full_time_witness :
    TimedQueue.init ℚ 30 none = some ⟨[], [], 30, 30 - 60⟩ ∧
    ((30 : ℚ) ≤ 60 → (30 : ℚ) - 60 ≤ 0) :=
  c10_default_full_time 30

/-- C8, counterexample: a queue built by the constructor with `ttl = 30` and
`minimal_timespan` omitted has `full_time = -30`; after a single append,
`is_full()` is `true` although only one sample is held, refuting "false
whenever fewer than 2 samples exist". -/
theorem c8_counterexample :
    TimedQueue.init ℚ 30 none = some ⟨[], [], 30, -30⟩ ∧
    ((⟨[], [], 30, -30⟩ : TimedQueue ℚ).append 0 4).isFull 0 = true ∧
    ((⟨[], [], 30, -30⟩ : TimedQueue ℚ).append 0 4).times.length = 1 := by
  refine ⟨by norm_num [TimedQueue.init], ?_, by decide⟩
  norm_num [TimedQueue.isFull, TimedQueue.cleanup, TimedQueue.append, dropStale]

/-- C8 as amended: provided `full_time` is positive, `is_full()` is `true`
exactly when at least two samples are retained and the span between the
oldest and newest retained sample is at least `full_time` (with a
non-positive `full_time` — constructible via the default `full_time =
ttl - 1 minute` — a single retained sample already counts as full). -/
theorem c8_amended (now : ℚ) (q : TimedQueue ℚ) (hft : 0 < q.fullTime) :
    q.isFull now = true ↔
      2 ≤ (q.cleanup now).times.length ∧
      (q.cleanup now).times.getLastD 0 - (q.cleanup now).times.headD 0 ≥
        q.fullTime := by
  simp only [TimedQueue.isFull, Bool.and_eq_true, Bool.not_eq_true',
    decide_eq_true_eq]
  rcases hts : (q.cleanup now).times with _ | ⟨a, _ | ⟨b, l⟩⟩
  · simp
  · simp only [List.isEmpty_cons, List.length_cons, List.length_nil,
      List.getLastD_cons, List.getLastD_nil, List.headD_cons]
    constructor
    · rintro ⟨-, hspan⟩
      exfalso
      have : (0 : ℚ) ≥ q.fullTime := by simpa using hspan
      linarith
    · rintro ⟨hlen, -⟩
      omega
  · simp only [List.isEmpty_cons, List.length_cons, List.headD_cons]
    constructor
    · rintro ⟨-, hspan⟩
      exact ⟨by omega, hspan⟩
    · rintro ⟨-, hspan⟩
      exact ⟨trivial, hspan⟩

/-- Witness for C8's amended statement on a concrete two-sample queue. -/
theorem c8_amended_witness :
    (⟨[0, 100], [1, 2], 7200, 1800⟩ : TimedQueue ℚ).isFull 100 = true ↔
      2 ≤ ((⟨[0, 100], [1, 2], 7200, 1800⟩ : TimedQueue ℚ).cleanup 100).times.length ∧
      ((⟨[0, 100], [1, 2], 7200, 1800⟩ : TimedQueue ℚ).cleanup 100).times.getLastD 0 -
        ((⟨[0, 100], [1, 2], 7200, 1800⟩ : TimedQueue ℚ).cleanup 100).times.headD 0 ≥
        (⟨[0, 100], [1, 2], 7200, 1800⟩ : TimedQueue ℚ).fullTime :=
  c8_amended 100 ⟨[0, 100], [1, 2], 7200, 1800⟩ (by decide)

/-- C6, counterexample: entering a session with autoscan previously enabled
and target sensor `mxc` issues no channel-selection command at all, and the
scanner's selected channel stays whatever it was (`pt1` here), refuting "the
target sensor channel is selected on the scanner". -/
theorem c6_counterexample :
    ((controllerEnter ⟨true, "pt1"⟩ "mxc").events.all
      (fun e => match e with | ScanEv.setChannel _ => false | _ => true)) = true ∧
    (controllerEnter ⟨true, "pt1"⟩ "mxc").scanner.channel = "pt1" := by
  refine ⟨by decide, by decide⟩

/-- C6 as amended: on session entry the prior autoscan setting is recorded and
autoscan ends disabled (the disabling write being issued only when it was
enabled), the context is marked active — but no target-channel selection is
performed on the scanner, whose selected channel is left unchanged. -/
theorem c6_amended (sc : ScannerState) (target : String) :
    (controllerEnter sc target).recordedAutoscan = sc.autoscan ∧
    (controllerEnter sc target).scanner.autoscan = false ∧
    (controllerEnter sc target).scanner.channel = sc.channel ∧
    (controllerEnter sc target).contextActive = true ∧
    ((controllerEnter sc target).events.all
      (fun e => match e with | ScanEv.setChannel _ => false | _ => true)) = true := by
  rcases sc with ⟨a, c⟩
  cases a <;> simp [controllerEnter]

/-- C7, counterexample: one poll tick whose sensor read returns NaN appends
that NaN to the stability window and to the plot window, refuting "a NaN
reading is discarded and never appended". -/
theorem c7_counterexample :
    (pollAppendAll 0 SensorVal.nan (⟨[], [], 1800, 1740⟩ : TimedQueue SensorVal)
      [⟨[], [], 600, 540⟩]).1.values = [SensorVal.nan] ∧
    ((pollAppendAll 0 SensorVal.nan (⟨[], [], 1800, 1740⟩ : TimedQueue SensorVal)
      [⟨[], [], 600, 540⟩]).2.map TimedQueue.values) = [[SensorVal.nan]] := by
  refine ⟨by decide, by decide⟩

/-- C7 as amended: the poll tick appends whatever value the sensor read
returned — NaN included — to the stability window and to every additional
window; no NaN filtering exists anywhere on the append path (only an
exception from the read itself is caught and logged). -/
theorem c7_amended {V : Type} (now : ℚ) (val : V) (qs : TimedQueue V)
    (qas : List (TimedQueue V)) :
    (pollAppendAll now val qs qas).1.values = (qs.cleanup now).values ++ [val] ∧
    (pollAppendAll now val qs qas).2 = qas.map (fun q =>
      ⟨(q.cleanup now).times ++ [now], (q.cleanup now).values ++ [val],
       q.ttl, q.fullTime⟩) := by
  constructor
  · rfl
  · rfl

/-- Characterization of `_evaluate_stability` on a full window whose fit
succeeds, used by the stability-criterion and fall-out theorems. -/
theorem evaluateStability_of_fit (now : ℚ) (d : StablePoller) (k b r2 : ℚ)
    (hfull : d.queue.isFull now = true)
    (hfit : fitLinear ((d.queue.getData now).1.map
        (fun t => t - (d.queue.getData now).1.headD 0)) (d.queue.getData now).2 =
      some (k, b, r2)) :
    evaluateStability now d =
      if |k * d.queue.fullTime| ≤ d.stabilityKelvin ∧ r2 > 0.95 then
        (if d.stableEvent then { d with queue := d.queue.cleanup now }
         else { d with queue := d.queue.cleanup now, stableEvent := true,
                       stableStart := some (now - d.queue.fullTime) })
      else
        (if d.stableEvent then
          { d with queue := d.queue.clear, stableEvent := false,
                   stableStart := none }
         else { d with queue := d.queue.cleanup now }) := by
  unfold evaluateStability
  rw [hfull]
  simp only [Bool.not_true, Bool.false_eq_true, if_false, hfit]

/-- C4: once the stability window is full and the least-squares fit of
`(elapsed, value)` yields slope `k` and determination `r2`, the detector is
STABLE after the evaluation exactly when `|k| * full_time ≤ stability_kelvin`
and `r2 > 0.95` — `full_time` being the configured minimum span, not the
actual window span — and on the transition into STABLE it back-dates
`stable_since` to `now - full_time` and sets the broadcast event that wakes
all waiters. -/
theorem c4_stability_criterion (now : ℚ) (d : StablePoller) (k b r2 : ℚ)
    (hw : 0 ≤ d.queue.fullTime)
    (hfull : d.queue.isFull now = true)
    (hfit : fitLinear ((d.queue.getData now).1.map
        (fun t => t - (d.queue.getData now).1.headD 0)) (d.queue.getData now).2 =
      some (k, b, r2)) :
    ((evaluateStability now d).stableEvent = true ↔
      (|k| * d.queue.fullTime ≤ d.stabilityKelvin ∧ r2 > 0.95)) ∧
    (d.stableEvent = false → |k| * d.queue.fullTime ≤ d.stabilityKelvin → r2 > 0.95 →
      (evaluateStability now d).stableStart = some (now - d.queue.fullTime) ∧
      (evaluateStability now d).stableEvent = true) := by
  have habs : |k| * d.queue.fullTime = |k * d.queue.fullTime| := by
    rw [abs_mul, abs_of_nonneg hw]
  rw [evaluateStability_of_fit now d k b r2 hfull hfit, habs]
  by_cases hcrit : |k * d.queue.fullTime| ≤ d.stabilityKelvin ∧ r2 > 0.95
  · rw [if_pos hcrit]
    constructor
    · cases hse : d.stableEvent <;> simp [hcrit.1, hcrit.2]
    · intro hse hk hr
      rw [hse]
      simp
  · rw [if_neg hcrit]
    constructor
    · cases hse : d.stableEvent <;> simp <;>
        (intro h1; by_contra hr; exact hcrit ⟨h1, lt_of_not_ge hr⟩)
    · intro hse hk hr
      exact absurd ⟨hk, hr⟩ hcrit

/-- Witness for C4: a full two-sample constant window (values `4, 4` over a
100-second span, `full_time = 60`) fits with slope `0` and `R² = 1`, so the
detector transitions to STABLE with `stable_since = 100 - 60`. -/
theorem c4_stability_criterion_witness :
    ((evaluateStability 100 detConstant).stableEvent = true ↔
      (|(0 : ℚ)| * detConstant.queue.fullTime ≤ detConstant.stabilityKelvin ∧
        (1 : ℚ) > 0.95)) ∧
    (detConstant.stableEvent = false →
      |(0 : ℚ)| * detConstant.queue.fullTime ≤ detConstant.stabilityKelvin →
      (1 : ℚ) > 0.95 →
      (evaluateStability 100 detConstant).stableStart =
        some (100 - detConstant.queue.fullTime) ∧
      (evaluateStability 100 detConstant).stableEvent = true) :=
  c4_stability_criterion 100 detConstant 0 4 1
    (by norm_num [detConstant])
    (by norm_num [detConstant, TimedQueue.isFull, TimedQueue.cleanup, dropStale])
    (by norm_num [detConstant, TimedQueue.getData, TimedQueue.cleanup, dropStale,
      fitLinear, listMean])

/-- C5: when the detector was STABLE and the evaluated window no longer meets
the stability criterion, the evaluation clears the STABLE event, unsets
`stable_since`, and discards every sample of the stability window, so a
subsequent append (and hence any subsequent snapshot) contains only
post-transition samples. -/
theorem c5_fallout_clears (now : ℚ) (d : StablePoller) (k b r2 : ℚ)
    (hst : d.stableEvent = true)
    (hfull : d.queue.isFull now = true)
    (hfit : fitLinear ((d.queue.getData now).1.map
        (fun t => t - (d.queue.getData now).1.headD 0)) (d.queue.getData now).2 =
      some (k, b, r2))
    (hcrit : ¬(|k * d.queue.fullTime| ≤ d.stabilityKelvin ∧ r2 > 0.95)) :
    (evaluateStability now d).stableEvent = false ∧
    (evaluateStability now d).stableStart = none ∧
    (evaluateStability now d).queue.times = [] ∧
    (evaluateStability now d).queue.values = [] ∧
    (∀ now₂ v₂, ((evaluateStability now d).queue.append now₂ v₂).values = [v₂]) := by
  rw [evaluateStability_of_fit now d k b r2 hfull hfit, if_neg hcrit, hst]
  simp [TimedQueue.clear, TimedQueue.append, TimedQueue.cleanup, dropStale]

/-- Witness for C5: a stable detector whose full window ends in a step change
(values `4, 4, 10`) fits with slope `3/50` and `R² = 3/4`, breaking the
criterion, so the evaluation clears state and window. -/
theorem c5_fallout_clears_witness :
    (evaluateStability 100 detStep).stableEvent = false ∧
    (evaluateStability 100 detStep).stableStart = none ∧
    (evaluateStability 100 detStep).queue.times = [] ∧
    (evaluateStability 100 detStep).queue.values = [] ∧
    (∀ now₂ v₂, ((evaluateStability 100 detStep).queue.append now₂ v₂).values = [v₂]) :=
  c5_fallout_clears 100 detStep (3 / 50) 3 (3 / 4)
    (by norm_num [detStep])
    (by norm_num [detStep, TimedQueue.isFull, TimedQueue.cleanup, dropStale])
    (by norm_num [detStep, TimedQueue.getData, TimedQueue.cleanup, dropStale,
      fitLinear, listMean])
    (by norm_num [detStep])

/-- Run of the sweep loop under an environment whose heater calls all succeed
and whose detector stabilizes during every wait: each non-`'off'` range is
tested in enumeration order, `true` is recorded per range, and per range the
trace grows by the committed range write, the settle delay and one
timeout-less stability wait. -/
theorem rangesSweep_run (env : CalEnv) (hc : ∀ i, env.cmdRaises i = false)
    (hw : ∀ i, env.waitStabilizes i = true) :
    ∀ (rs : List String) (results : List Bool) (s : St),
      rangesSweep env rs results s =
        (Except.ok (results ++ List.replicate (nonOffCount rs) true),
         ⟨s.trace ++ sweepSpecTrace rs, s.cmdIdx + 2 * nonOffCount rs,
          s.waitIdx + nonOffCount rs⟩) := by
  intro rs
  induction rs with
  | nil =>
    intro results s
    simp [rangesSweep, nonOffCount, sweepSpecTrace, CalM.pure]
  | cons r rest ih =>
    intro results s
    by_cases hr : r = "off"
    · subst hr
      rw [show rangesSweep env ("off" :: rest) results = rangesSweep env rest results
        from rfl, ih]
      rfl
    · simp only [rangesSweep, if_neg hr, CalM.bind_apply, writeSession, hcall, hc,
        Bool.false_eq_true, if_false, sleepFor, catchTimeout, waitForStability, hw,
        if_true, CalM.pure]
      rw [ih]
      have h1 : nonOffCount (r :: rest) = nonOffCount rest + 1 := by
        simp [nonOffCount, List.filter_cons, hr]
      have h2 : sweepSpecTrace (r :: rest) =
          [Ev.range r, Ev.accept, Ev.sleep 5, Ev.waitStab none] ++ sweepSpecTrace rest := by
        simp [sweepSpecTrace, hr]
      rw [h1, h2]
      simp [List.replicate_succ, St.mk.injEq, Prod.ext_iff]
      omega

/-- Full run of `calibrate_ranges` when no heater call raises and the detector
stabilizes during every wait, shared by the sweep-behavior and heater-off
theorems. -/
theorem calibrateRanges_run (env : CalEnv) (tolerance : ℚ)
    (hc : ∀ i, env.cmdRaises i = false) (hw : ∀ i, env.waitStabilizes i = true) :
    calibrateRanges env tolerance St.start =
      (Except.ok (List.replicate (nonOffCount env.ranges) true),
       ⟨rangesSpecTrace env.ranges, 7 + 2 * nonOffCount env.ranges,
        nonOffCount env.ranges⟩) := by
  simp only [calibrateRanges, CalM.bind_apply, writeSession, hcall, hc,
    Bool.false_eq_true, if_false, St.start]
  rw [rangesSweep_run env hc hw]
  simp only [heaterTurnOff, writeSession, hcall, hc, Bool.false_eq_true, if_false,
    CalM.bind_apply, CalM.pure]
  simp [rangesSpecTrace, St.mk.injEq, Prod.ext_iff]
  omega

/-- C1 as amended: within a session, `calibrate_ranges` commits open-loop mode
at 50% manual output, then for each hardware range except `'off'`, in
enumeration order, sets and commits the range, sleeps the fixed 5 seconds and
invokes `wait_for_stability` with NO timeout argument (the `tolerance`
parameter is unused): on a run where every wait observes stability and no
heater call raises, `true` is recorded per tested range, the full ordered
list is returned, and the heater is commanded off at the end.  (Because no
timeout is passed, the `except TimeoutError` branch that would record `false`
and stop the sweep is unreachable: a wait on a never-stabilizing detector
blocks instead of timing out.) -/
theorem c1_amended (env : CalEnv) (tolerance : ℚ)
    (hc : ∀ i, env.cmdRaises i = false) (hw : ∀ i, env.waitStabilizes i = true) :
    calibrateRanges env tolerance St.start =
      (Except.ok (List.replicate (nonOffCount env.ranges) true),
       ⟨rangesSpecTrace env.ranges, 7 + 2 * nonOffCount env.ranges,
        nonOffCount env.ranges⟩) :=
  calibrateRanges_run env tolerance hc hw

/-- Witness for C1's amended statement on a concrete four-range environment. -/
theorem c1_amended_witness :
    calibrateRanges envAllStable (1 / 1000) St.start =
      (Except.ok (List.replicate (nonOffCount envAllStable.ranges) true),
       ⟨rangesSpecTrace envAllStable.ranges, 7 + 2 * nonOffCount envAllStable.ranges,
        nonOffCount envAllStable.ranges⟩) :=
  c1_amended envAllStable (1 / 1000) (fun _ => rfl) (fun _ => rfl)

/-- C1, counterexample: in a concrete `calibrate_ranges` run with
`tolerance = 1/1000`, no `wait_for_stability` invocation carries any timeout
argument (in particular not `1/1000`), while such invocations do occur —
refuting "wait_for_stability is invoked with the caller-supplied tolerance as
its timeout". -/
theorem c1_counterexample :
    ((calibrateRanges envAllStable (1 / 1000) St.start).2.trace.all
      (fun e => match e with | Ev.waitStab (some _) => false | _ => true)) = true ∧
    Ev.waitStab none ∈ (calibrateRanges envAllStable (1 / 1000) St.start).2.trace := by
  rw [calibrateRanges_run envAllStable (1 / 1000) (fun _ => rfl) (fun _ => rfl)]
  constructor
  · simp [rangesSpecTrace, sweepSpecTrace, envAllStable]
  · simp [rangesSpecTrace, sweepSpecTrace, envAllStable]

/-- C2 as amended: `calibrate_ranges` commands the heater to the safe OFF
state (mode off, range off, manual value 0, committed) at procedure end on
every terminating, non-raising run — the `turn_off` call follows the loop, so
this covers normal completion and an early `break` — but there is no
`try/finally`, so when an exception propagates out of the sweep the OFF
sequence is skipped (the session's `__exit__` is then what turns the heater
off). -/
theorem c2_amended (env : CalEnv) (tolerance : ℚ)
    (hc : ∀ i, env.cmdRaises i = false) (hw : ∀ i, env.waitStabilizes i = true) :
    (calibrateRanges env tolerance St.start).1 =
      Except.ok (List.replicate (nonOffCount env.ranges) true) ∧
    List.IsSuffix [Ev.mode "off", Ev.range "off", Ev.manualValue 0, Ev.accept]
      (calibrateRanges env tolerance St.start).2.trace := by
  rw [calibrateRanges_run env tolerance hc hw]
  refine ⟨rfl, ?_⟩
  exact ⟨[Ev.mode "open_loop", Ev.manualValue 50, Ev.accept] ++
    sweepSpecTrace env.ranges, by simp [rangesSpecTrace]⟩

/-- Witness for C2's amended statement on a concrete three-range environment. -/
theorem c2_amended_witness :
    (calibrateRanges envAllStable2 (1 / 1000) St.start).1 =
      Except.ok (List.replicate (nonOffCount envAllStable2.ranges) true) ∧
    List.IsSuffix [Ev.mode "off", Ev.range "off", Ev.manualValue 0, Ev.accept]
      (calibrateRanges envAllStable2 (1 / 1000) St.start).2.trace :=
  c2_amended envAllStable2 (1 / 1000) (fun _ => rfl) (fun _ => rfl)

/-- C2, counterexample: when the first range write of the sweep raises (an
external heater I/O failure), `calibrate_ranges` ends with that exception and
its trace contains no `mode off` command at all — the heater is not forced to
the safe OFF state at procedure end, refuting "this must execute even if the
loop aborted or raised". -/
theorem c2_counterexample :
    (calibrateRanges envCmdFail (1 / 1000) St.start).1 =
      Except.error CalErr.ioError ∧
    ((calibrateRanges envCmdFail (1 / 1000) St.start).2.trace.all
      (fun e => match e with | Ev.mode "off" => false | _ => true)) = true := by
  constructor <;>
    simp [calibrateRanges, rangesSweep, CalM.bind_apply, writeSession, hcall,
      envCmdFail, sleepFor, catchTimeout, waitForStability, CalM.pure, St.start,
      heaterTurnOff]

/-- Full run of `calibrate_p` when no heater call raises, in both detector
behaviors during the first wait, shared by the gain-search theorems. -/
theorem calibrateP_run (env : CalEnv) (setpoint tolerance : ℚ)
    (hc : ∀ i, env.cmdRaises i = false) :
    (env.waitStabilizes 0 = true →
      calibrateP env setpoint tolerance St.start =
        (Except.ok (),
         ⟨[Ev.mode "closed_loop", Ev.setpointVal setpoint, Ev.accept,
           Ev.gainP 5, Ev.accept, Ev.waitStab none, Ev.gainP 3, Ev.accept],
          7, 1⟩)) ∧
    (env.waitStabilizes 0 = false →
      calibrateP env setpoint tolerance St.start =
        (Except.error CalErr.hangs,
         ⟨[Ev.mode "closed_loop", Ev.setpointVal setpoint, Ev.accept,
           Ev.gainP 5, Ev.accept, Ev.waitStab none], 5, 1⟩)) := by
  have hclip : npClip 3 0 10000 = (3 : ℚ) := by
    rw [npClip, min_eq_left (by norm_num), max_eq_right (by norm_num)]
  have hclip' : npClip (5 * 0.6) 0 10000 = (3 : ℚ) := by
    rw [show (5 : ℚ) * 0.6 = 3 by norm_num, hclip]
  constructor <;> intro h <;>
    norm_num [calibrateP, gainSearchLoop, CalM.bind_apply, writeSession, hcall,
      hc, catchTimeout, waitForStability, h, CalM.pure, hclip, hclip', St.start]

/-- C3 as amended: `calibrate_p` commits closed-loop mode with the given
setpoint, then, starting at `p = 5.0` under the guard `p < 1e4`, commits the
gain and invokes `wait_for_stability` with NO timeout argument (the
`tolerance` parameter is unused); on success the search stops and the final
committed gain is `clip(p * 0.6, 0, 1e4)`.  Because no timeout is passed, a
wait either observes stability or blocks forever, so the
`except TimeoutError` doubling branch is unreachable: every terminating
non-raising run stops at `p = 5.0` and commits the final gain `3.0`, and a
run whose detector never stabilizes blocks during the first wait, committing
nothing further. -/
theorem c3_amended (env : CalEnv) (setpoint tolerance : ℚ)
    (hc : ∀ i, env.cmdRaises i = false) :
    (env.waitStabilizes 0 = true →
      calibrateP env setpoint tolerance St.start =
        (Except.ok (),
         ⟨[Ev.mode "closed_loop", Ev.setpointVal setpoint, Ev.accept,
           Ev.gainP 5, Ev.accept, Ev.waitStab none, Ev.gainP 3, Ev.accept],
          7, 1⟩)) ∧
    (env.waitStabilizes 0 = false →
      calibrateP env setpoint tolerance St.start =
        (Except.error CalErr.hangs,
         ⟨[Ev.mode "closed_loop", Ev.setpointVal setpoint, Ev.accept,
           Ev.gainP 5, Ev.accept, Ev.waitStab none], 5, 1⟩)) :=
  calibrateP_run env setpoint tolerance hc

/-- Witness for C3's amended statement: a detector already stable during the
first wait gives the terminating run, committing the final gain `3`. -/
theorem c3_amended_witness :
    calibrateP envAllStable 1 (1 / 1000) St.start =
      (Except.ok (),
       ⟨[Ev.mode "closed_loop", Ev.setpointVal 1, Ev.accept,
         Ev.gainP 5, Ev.accept, Ev.waitStab none, Ev.gainP 3, Ev.accept],
        7, 1⟩) :=
  (c3_amended envAllStable 1 (1 / 1000) (fun _ => rfl)).1 rfl

/-- C3, counterexample: with the claim's own mock — a detector that
stabilizes only once `p ≥ 80`, hence not at the only gain the run ever
reaches, `p = 5` — `calibrate_p` blocks forever in the first
`wait_for_stability` (no timeout was passed): no doubling to `10` ever
happens and no final gain `48` is committed; and in a stabilizing run every
wait invocation carries no timeout — refuting both the claimed doubling
sequence `5, 10, 20, 40, 80` with final gain `48.0` and "wait_for_stability
is called with the caller's tolerance". -/
theorem c3_counterexample :
    (calibrateP envStableAt80 1 (1 / 1000) St.start).1 =
      Except.error CalErr.hangs ∧
    Ev.gainP 10 ∉ (calibrateP envStableAt80 1 (1 / 1000) St.start).2.trace ∧
    Ev.gainP 48 ∉ (calibrateP envStableAt80 1 (1 / 1000) St.start).2.trace ∧
    ((calibrateP envAllStable 1 (1 / 1000) St.start).2.trace.all
      (fun e => match e with | Ev.waitStab (some _) => false | _ => true)) = true := by
  have h80 := (calibrateP_run envStableAt80 1 (1 / 1000) (fun _ => rfl)).2 rfl
  have hok := (calibrateP_run envAllStable 1 (1 / 1000) (fun _ => rfl)).1 rfl
  rw [h80, hok]
  refine ⟨rfl, by decide, by decide, by decide⟩
